import Mathlib

/-!
A shallow embedding of `src/scripts/file_to_image.py`.

The script talks to the Windows shell and GDI through ctypes.  Every native
call is modelled by an oracle (`Platform` for the default-icon path,
`ExePlatform` for the executable-resource path) that fixes the answer of each
call, and every function of the script is translated to a pure Lean function
returning its Python result (`Except` where the Python code can raise)
together with the ordered trace of native calls it issued, so that resource
acquisition and release can be checked on the trace.
-/

namespace FileToImage

/-- Native calls and collaborator calls issued by the script, recorded in
order.  `deleteObject`, `deleteDC`, `releaseDC` and `destroyIcon` are the
release calls; `save` is the only call that writes to the output path. -/
inductive Event where
  | shQueryPrimary (attempt : Nat)
  | shQueryFallback (attempt : Nat)
  | getDC
  | createCompatibleDC
  | createCompatibleBitmap
  | selectObject (bmp : Nat)
  | drawIconEx
  | getDIBits
  | frombuffer
  | resize
  | save (path : String)
  | deleteObject (h : Nat)
  | deleteDC (h : Nat)
  | releaseDC (h : Nat)
  | destroyIcon (h : Nat)
deriving DecidableEq

/-- Python exceptions raised (or catchable) in the script.  Every constructor
models a subclass of Python's `Exception`. -/
inductive PyExc where
  | valueError (msg : String)
  | winError (code : Nat)
  | saveError (path : String)
  | destroyIconError
  | iconExtractorError (msg : String)
  | otherError (msg : String)
deriving DecidableEq

/-- Oracle fixing the answers of the native calls made by
`default_icon_to_image`.  `shPrimary a` / `shFallback a` are the
`SHGetFileInfoW` results (return value, `hIcon` field; `none` models a NULL
handle) of the primary and fallback query of attempt `a`; `getDC`,
`createCompatibleDC`, `createCompatibleBitmap` and `previousBitmap` are the
handles returned by the corresponding GDI calls (`0` = failure);
`drawSucceeds` is the `DrawIconEx` outcome and `lastError` the value of
`ctypes.get_last_error()`; `dibByte i` is byte `i` written by `GetDIBits`;
`saveSucceeds` is the outcome of `img_resized.save`; `destroyIconRaises`
makes the final `DestroyIcon` call raise. -/
structure Platform where
  shPrimary : Nat → Nat × Option Nat
  shFallback : Nat → Nat × Option Nat
  getDC : Nat
  createCompatibleDC : Nat
  createCompatibleBitmap : Nat
  previousBitmap : Nat
  drawSucceeds : Bool
  lastError : Nat
  dibByte : Nat → Nat
  saveSucceeds : Bool
  destroyIconRaises : Bool

/-- Translation of the inner helper `get_icon_handle`: issue the primary
shell query; on a zero return value retry once with the normal-file
attributes fallback; a second zero return value yields `None`, otherwise the
`hIcon` field of the structure filled by the last query is returned. -/
def get_icon_handle (p : Platform) (attempt : Nat) : Option Nat × List Event :=
  let pr := p.shPrimary attempt
  if pr.1 = 0 then
    let fb := p.shFallback attempt
    if fb.1 = 0 then
      (none, [Event.shQueryPrimary attempt, Event.shQueryFallback attempt])
    else
      (fb.2, [Event.shQueryPrimary attempt, Event.shQueryFallback attempt])
  else
    (pr.2, [Event.shQueryPrimary attempt])

/-- Translation of the acceptance test of the retry loop,
`if hicon and 0 <= hicon <= 2**32-1`: the handle is truthy (not `None`, not
zero) and at most `2 ^ 32 - 1`.  Handles read back from the `HICON` field
are non-negative, so they are modelled as `Nat`. -/
def acceptHandle : Option Nat → Bool
  | none => false
  | some h => decide (h ≠ 0) && decide (h ≤ 2 ^ 32 - 1)

/-- Translation of the retry loop `for attempt in range(retries)`: call
`get_icon_handle`; break with the handle if it is accepted, otherwise reset
it to `None` and try again; after the last attempt the handle is `None`. -/
def resolve (p : Platform) (attempt : Nat) : Nat → Option Nat × List Event
  | 0 => (none, [])
  | fuel + 1 =>
    let r := get_icon_handle p attempt
    if acceptHandle r.1 then (r.1, r.2)
    else ((resolve p (attempt + 1) fuel).1, r.2 ++ (resolve p (attempt + 1) fuel).2)

/-- Trace of a run of the resolver in which every attempt issues the primary
query and then the fallback query. -/
def attemptPairs (start : Nat) : Nat → List Event
  | 0 => []
  | n + 1 => Event.shQueryPrimary start :: Event.shQueryFallback start ::
      attemptPairs (start + 1) n

/-- Bundled substitute image returned when no icon can be resolved. -/
def fallbackPath : String := "assets/images/unknown.png"

/-- One pixel in canonical (red, green, blue, alpha) channel order. -/
abbrev Pixel := Nat × Nat × Nat × Nat

/-- Decoded in-memory image with pixels in canonical (R, G, B, A) order. -/
structure PortableImage where
  width : Nat
  height : Nat
  pixels : List Pixel
deriving DecidableEq

/-- Reinterpretation of a raw byte stream as pixels: each 4-byte group
(B, G, R, A) becomes the pixel (R, G, B, A). -/
def bgraToPixels : List Nat → List Pixel
  | b :: g :: r :: a :: rest => (r, g, b, a) :: bgraToPixels rest
  | _ => []

/-- Modelled from the spec: the codec step
`Image.frombuffer('RGBA', (width, height), buffer, 'raw', 'BGRA', 0, 1)` at
line 118 of `file_to_image.py` is performed by the external PIL collaborator,
whose code is not part of this repository.  Following spec section 4.3, the
codec is total for a buffer of exactly `width * height * 4` bytes,
reinterprets each 4-byte group as (B, G, R, A) producing pixels in canonical
(R, G, B, A) order with the same dimensions and no resampling, and rejects
any other buffer length. -/
def decode (buf : List Nat) (width height : Nat) : Option PortableImage :=
  if buf.length = width * height * 4 then
    some (PortableImage.mk width height (bgraToPixels buf))
  else
    none

/-- Buffer filled by `GetDIBits`: the code allocates exactly
`width * height * 4 = 32 * 32 * 4` bytes. -/
def dibBuffer (p : Platform) : List Nat :=
  (List.range (32 * 32 * 4)).map p.dibByte

/-- Translation of the `try` block of `default_icon_to_image`: draw the icon
into the memory context (raising `ctypes.WinError(ctypes.get_last_error())`
on failure), read the DIB bits back, decode the buffer, resize, and save to
the output path (the save collaborator may raise). -/
def renderBody (p : Platform) (output_path : String) : Except PyExc Unit × List Event :=
  if p.drawSucceeds then
    match decode (dibBuffer p) 32 32 with
    | none =>
      (Except.error (PyExc.valueError "not enough image data"),
        [Event.drawIconEx, Event.getDIBits, Event.frombuffer])
    | some _img =>
      if p.saveSucceeds then
        (Except.ok (),
          [Event.drawIconEx, Event.getDIBits, Event.frombuffer, Event.resize,
            Event.save output_path])
      else
        (Except.error (PyExc.saveError output_path),
          [Event.drawIconEx, Event.getDIBits, Event.frombuffer, Event.resize,
            Event.save output_path])
  else
    (Except.error (PyExc.winError p.lastError), [Event.drawIconEx])

/-- Translation of the tail of the `finally` block: if the handle is truthy
and in range, call `DestroyIcon` inside a `try` whose `except` swallows any
exception — the call is issued exactly once and nothing propagates. -/
def destroyIconStep (p : Platform) (hicon : Nat) : List Event :=
  if hicon ≠ 0 ∧ hicon ≤ 2 ^ 32 - 1 then
    match (if p.destroyIconRaises then Except.error PyExc.destroyIconError
           else Except.ok ()) with
    | Except.ok _ => [Event.destroyIcon hicon]
    | Except.error _ => [Event.destroyIcon hicon]
  else []

/-- Translation of `default_icon_to_image` with an explicit retry budget:
resolve the icon handle (returning the fallback path when none is found),
acquire the screen DC, memory DC and compatible bitmap (raising
`ValueError` after releasing the two contexts when bitmap creation fails),
select the bitmap, run the render body, and run the `finally` cleanup —
restore the previous bitmap, delete the bitmap, delete the memory DC,
release the screen DC, and destroy the icon — on both outcomes of the body,
finally returning the output path on success. -/
def default_icon_to_image_r (p : Platform) (_file_path output_path : String)
    (_icon_size : Int) (retries : Nat) : Except PyExc String × List Event :=
  match (resolve p 0 retries).1 with
  | none => (Except.ok fallbackPath, (resolve p 0 retries).2)
  | some hicon =>
    if p.createCompatibleBitmap = 0 then
      (Except.error (PyExc.valueError "Failed to create a compatible bitmap."),
        (resolve p 0 retries).2 ++
          [Event.getDC, Event.createCompatibleDC, Event.createCompatibleBitmap,
            Event.deleteDC p.createCompatibleDC, Event.releaseDC p.getDC])
    else
      ((renderBody p output_path).1.map (fun _ => output_path),
        (resolve p 0 retries).2 ++
          [Event.getDC, Event.createCompatibleDC, Event.createCompatibleBitmap,
            Event.selectObject p.createCompatibleBitmap] ++
          (renderBody p output_path).2 ++
          ([Event.selectObject p.previousBitmap,
            Event.deleteObject p.createCompatibleBitmap,
            Event.deleteDC p.createCompatibleDC,
            Event.releaseDC p.getDC] ++ destroyIconStep p hicon))

/-- Reference retry budget of the resolver. -/
def defaultRetries : Nat := 5

/-- Translation of `default_icon_to_image` with its default argument
`retries=5`. -/
def default_icon_to_image (p : Platform) (file_path output_path : String)
    (icon_size : Int) : Except PyExc String × List Event :=
  default_icon_to_image_r p file_path output_path icon_size defaultRetries

/-- Oracle fixing the outcome of each step of the `exe_to_image` pipeline:
`IconExtractor(exe_path)`, `extractor.get_icon(num=0)`, `Image.open`,
`resize` and `save`, each of which may raise. -/
structure ExePlatform where
  extractorInit : Except PyExc Unit
  getIcon : Except PyExc Unit
  imageOpen : Except PyExc Unit
  resizeStep : Except PyExc Unit
  saveStep : Except PyExc Unit

/-- Body of the `try` block of `exe_to_image`: the five pipeline steps in
order, returning the output path when all succeed. -/
def exeBody (ep : ExePlatform) (output_path : String) : Except PyExc String := do
  ep.extractorInit
  ep.getIcon
  ep.imageOpen
  ep.resizeStep
  ep.saveStep
  pure output_path

/-- Translation of `exe_to_image`: run the pipeline; `except
IconExtractorError` and `except Exception` both fall through to
`return None`, so every modelled exception is caught and mapped to `none`.
The outer `Except` layer records whether an exception escapes to the
caller. -/
def exe_to_image (ep : ExePlatform) (_exe_path output_path : String)
    (_icon_size : Int) : Except PyExc (Option String) :=
  match exeBody ep output_path with
  | Except.ok path => Except.ok (some path)
  | Except.error (PyExc.iconExtractorError _) => Except.ok none
  | Except.error _ => Except.ok none

/-- Value of one decimal digit character. -/
def digitVal? (c : Char) : Option Nat :=
  if c.isDigit then some (c.toNat - 48) else none

/-- Value of a non-empty string of decimal digits. -/
def digitsVal? : List Char → Option Nat
  | [] => none
  | [c] => digitVal? c
  | c :: rest =>
    match digitVal? c, digitsVal? rest with
    | some d, some n => some (d * 10 ^ rest.length + n)
    | _, _ => none

/-- Model of Python's `int(...)` on the size argument: an optional sign
followed by decimal digits; anything else raises `ValueError`, modelled as
`none`. -/
def pyInt? (s : String) : Option Int :=
  match s.toList with
  | [] => none
  | c :: rest =>
    if c = '-' then (digitsVal? rest).map (fun n => -(n : Int))
    else if c = '+' then (digitsVal? rest).map (fun n => (n : Int))
    else (digitsVal? (c :: rest)).map (fun n => (n : Int))

/-- Translation of `main`: exit 1 unless exactly five `argv` entries; exit 1
when the size does not parse as an integer; dispatch on the mode selector
(exit 1 on an unsupported one); `if result:` maps a truthy result (a
non-empty path) to exit 0 and a falsy one (`None` or the empty string) to
exit 2.  An exception raised by the selected operation is not caught and
escapes `main`. -/
def main (argv : List String) (ep : ExePlatform) (dp : Platform) :
    Except PyExc Nat :=
  if argv.length ≠ 5 then Except.ok 1
  else
    let file_type := argv.getD 1 ""
    let file_path := argv.getD 2 ""
    let output_path := argv.getD 3 ""
    match pyInt? (argv.getD 4 "") with
    | none => Except.ok 1
    | some icon_size =>
      if file_type = "exe" then
        match exe_to_image ep file_path output_path icon_size with
        | Except.error e => Except.error e
        | Except.ok none => Except.ok 2
        | Except.ok (some r) => if r ≠ "" then Except.ok 0 else Except.ok 2
      else if file_type = "default" then
        match (default_icon_to_image dp file_path output_path icon_size).1 with
        | Except.error e => Except.error e
        | Except.ok r => if r ≠ "" then Except.ok 0 else Except.ok 2
      else Except.ok 1

/-- Process-level exit status: the interpreter maps an exception that
escapes `main` to a termination with exit status 1. -/
def processExit (argv : List String) (ep : ExePlatform) (dp : Platform) : Nat :=
  match main argv ep dp with
  | Except.ok c => c
  | Except.error _ => 1

/-- Oracle on which every shell query fails. -/
def pAlwaysFail : Platform :=
  Platform.mk (fun _ => (0, none)) (fun _ => (0, none)) 11 12 13 14 true 0
    (fun _ => 0) true false

/-- Oracle on which the shell query fails on attempts 0 and 1 and yields
handle 7 on attempt 2. -/
def pThirdTry : Platform :=
  Platform.mk (fun a => if a = 2 then (1, some 7) else (0, none))
    (fun _ => (0, none)) 11 12 13 14 true 0 (fun _ => 0) true false

/-- Oracle on which everything succeeds, resolving handle 5 at once. -/
def pOk : Platform :=
  Platform.mk (fun _ => (1, some 5)) (fun _ => (0, none)) 11 12 13 14 true 0
    (fun _ => 0) true false

/-- Oracle resolving handle 5 at once on which `CreateCompatibleBitmap`
fails. -/
def pNoBitmap : Platform :=
  Platform.mk (fun _ => (1, some 5)) (fun _ => (0, none)) 11 12 0 14 true 0
    (fun _ => 0) true false

/-- Oracle resolving handle 5 at once on which `DrawIconEx` fails with last
error 1460. -/
def pDrawFail : Platform :=
  Platform.mk (fun _ => (1, some 5)) (fun _ => (0, none)) 11 12 13 14 false
    1460 (fun _ => 0) true false

/-- Oracle for the executable path on which every step succeeds. -/
def epOk : ExePlatform :=
  ExePlatform.mk (Except.ok ()) (Except.ok ()) (Except.ok ()) (Except.ok ())
    (Except.ok ())

/-- Oracle for the executable path on which extraction fails. -/
def epFail : ExePlatform :=
  ExePlatform.mk (Except.error (PyExc.iconExtractorError "no icon resource"))
    (Except.ok ()) (Except.ok ()) (Except.ok ()) (Except.ok ())

/-- Predicate singling out the shell-query events of the resolver. -/
def isShQuery : Event → Bool
  | Event.shQueryPrimary _ => true
  | Event.shQueryFallback _ => true
  | _ => false

theorem get_icon_handle_mem_sh (p : Platform) (a : Nat) :
    ∀ e ∈ (get_icon_handle p a).2, isShQuery e = true := by
  intro e he
  unfold get_icon_handle at he
  dsimp only at he
  split at he <;> [skip; (simp only [List.mem_singleton] at he; subst he; rfl)]
  split at he <;> simp only [List.mem_cons, List.mem_singleton, List.not_mem_nil,
    or_false] at he <;> rcases he with h | h <;> subst h <;> rfl

theorem resolve_mem_sh (p : Platform) :
    ∀ (fuel attempt : Nat), ∀ e ∈ (resolve p attempt fuel).2, isShQuery e = true := by
  intro fuel
  induction fuel with
  | zero => intro a e he; simp [resolve] at he
  | succ n ih =>
    intro a e he
    unfold resolve at he
    dsimp only at he
    split at he
    · exact get_icon_handle_mem_sh p a e he
    · rcases List.mem_append.mp he with h | h
      · exact get_icon_handle_mem_sh p a e h
      · exact ih (a + 1) e h

theorem resolve_some_valid (p : Platform) :
    ∀ (fuel attempt h : Nat), (resolve p attempt fuel).1 = some h →
      h ≠ 0 ∧ h ≤ 2 ^ 32 - 1 := by
  intro fuel
  induction fuel with
  | zero => intro a h hh; simp [resolve] at hh
  | succ n ih =>
    intro a h hh
    unfold resolve at hh
    dsimp only at hh
    split at hh
    · rename_i hacc
      rw [hh] at hacc
      simpa [acceptHandle, Bool.and_eq_true, decide_eq_true_eq] using hacc
    · exact ih (a + 1) h hh

theorem resolve_always_fail (p : Platform)
    (hp : ∀ a, (p.shPrimary a).1 = 0) (hf : ∀ a, (p.shFallback a).1 = 0) :
    ∀ (fuel attempt : Nat), resolve p attempt fuel = (none, attemptPairs attempt fuel) := by
  intro fuel
  induction fuel with
  | zero => intro a; simp [resolve, attemptPairs]
  | succ n ih =>
    intro a
    have hg : get_icon_handle p a =
        (none, [Event.shQueryPrimary a, Event.shQueryFallback a]) := by
      simp [get_icon_handle, hp a, hf a]
    simp [resolve, hg, acceptHandle, ih (a + 1), attemptPairs]

theorem attemptPairs_length (start n : Nat) :
    (attemptPairs start n).length = 2 * n := by
  induction n generalizing start with
  | zero => simp [attemptPairs]
  | succ m ih => simp [attemptPairs, ih (start + 1)]; omega

theorem destroyIconStep_eq (p : Platform) (h : Nat)
    (hv : h ≠ 0 ∧ h ≤ 2 ^ 32 - 1) :
    destroyIconStep p h = [Event.destroyIcon h] := by
  unfold destroyIconStep
  rw [if_pos hv]
  cases p.destroyIconRaises <;> rfl

theorem dibBuffer_decodes (p : Platform) :
    decode (dibBuffer p) 32 32 =
      some (PortableImage.mk 32 32 (bgraToPixels (dibBuffer p))) := by
  simp [decode, dibBuffer]

theorem renderBody_events (p : Platform) (out : String) :
    ∀ e ∈ (renderBody p out).2,
      e = Event.drawIconEx ∨ e = Event.getDIBits ∨ e = Event.frombuffer ∨
      e = Event.resize ∨ e = Event.save out := by
  intro e he
  unfold renderBody at he
  split at he
  · rw [dibBuffer_decodes p] at he
    dsimp only at he
    split at he <;>
      simp only [List.mem_cons, List.not_mem_nil, or_false] at he <;> tauto
  · simp only [List.mem_singleton] at he; tauto

theorem count_eq_zero_of_all_sh {l : List Event}
    (hl : ∀ e ∈ l, isShQuery e = true) {ev : Event}
    (hev : isShQuery ev = false) : l.count ev = 0 := by
  refine List.count_eq_zero.mpr (fun hmem => ?_)
  have := hl ev hmem
  rw [hev] at this
  exact Bool.false_ne_true this

theorem default_ok_cases (p : Platform) (fp out : String) (sz : Int)
    (n : Nat) (pth : String)
    (hok : (default_icon_to_image_r p fp out sz n).1 = Except.ok pth) :
    pth = out ∨ pth = fallbackPath := by
  unfold default_icon_to_image_r at hok
  split at hok
  · right
    simpa using hok.symm
  · split at hok
    · simp at hok
    · left
      rcases hb : (renderBody p out).1 with e | u
      · rw [hb] at hok; simp [Except.map] at hok
      · rw [hb] at hok; simpa [Except.map] using hok.symm

theorem getD_cons4 (b g r a : Nat) (l : List Nat) (n : Nat) :
    (b :: g :: r :: a :: l).getD (n + 4) 0 = l.getD n 0 := by
  show (b :: g :: r :: a :: l).getD (n + 1 + 1 + 1 + 1) 0 = l.getD n 0
  simp only [List.getD_cons_succ]

theorem bgraToPixels_length : ∀ buf : List Nat,
    (bgraToPixels buf).length = buf.length / 4
  | [] => rfl
  | [_] => by simp [bgraToPixels]
  | [_, _] => by simp [bgraToPixels]
  | [_, _, _] => by simp [bgraToPixels]
  | b :: g :: r :: a :: rest => by
    simp only [bgraToPixels, List.length_cons, bgraToPixels_length rest]
    omega

theorem bgraToPixels_get? (i : Nat) : ∀ buf : List Nat, 4 * i + 4 ≤ buf.length →
    (bgraToPixels buf).get? i =
      some (buf.getD (4 * i + 2) 0, buf.getD (4 * i + 1) 0,
        buf.getD (4 * i) 0, buf.getD (4 * i + 3) 0) := by
  induction i with
  | zero =>
    intro buf hlen
    match buf with
    | [] => simp at hlen
    | [_] => simp at hlen
    | [_, _] => simp at hlen
    | [_, _, _] => simp at hlen
    | b :: g :: r :: a :: rest => simp [bgraToPixels, List.getD]
  | succ m ih =>
    intro buf hlen
    match buf with
    | [] => simp at hlen
    | [_] => simp at hlen
    | [_, _] => simp at hlen
    | [_, _, _] => simp at hlen
    | b :: g :: r :: a :: rest =>
      have hr : 4 * m + 4 ≤ rest.length := by
        simp only [List.length_cons] at hlen
        omega
      have e0 : 4 * (m + 1) = 4 * m + 4 := by ring
      have e1 : 4 * (m + 1) + 1 = 4 * m + 1 + 4 := by ring
      have e2 : 4 * (m + 1) + 2 = 4 * m + 2 + 4 := by ring
      have e3 : 4 * (m + 1) + 3 = 4 * m + 3 + 4 := by ring
      rw [e1, e2, e3, e0, getD_cons4, getD_cons4, getD_cons4, getD_cons4]
      have step : (bgraToPixels (b :: g :: r :: a :: rest)).get? (m + 1) =
          (bgraToPixels rest).get? m := by
        simp [bgraToPixels]
      rw [step]
      exact ih rest hr

theorem get_icon_handle_events (p : Platform) (k : Nat) :
    ∀ e ∈ (get_icon_handle p k).2,
      e = Event.shQueryPrimary k ∨ e = Event.shQueryFallback k := by
  intro e he
  unfold get_icon_handle at he
  dsimp only at he
  split at he
  · split at he <;>
      simp only [List.mem_cons, List.not_mem_nil, or_false] at he <;> tauto
  · simp only [List.mem_singleton] at he; tauto

theorem get_icon_handle_primary_mem (p : Platform) (k : Nat) :
    Event.shQueryPrimary k ∈ (get_icon_handle p k).2 := by
  unfold get_icon_handle
  dsimp only
  split
  · split <;> simp
  · simp

theorem resolve_step_reject (p : Platform) (a fuel : Nat)
    (hacc : acceptHandle (get_icon_handle p a).1 = false) :
    resolve p a (fuel + 1) =
      ((resolve p (a + 1) fuel).1,
        (get_icon_handle p a).2 ++ (resolve p (a + 1) fuel).2) := by
  conv_lhs => rw [resolve]
  simp [hacc]

theorem resolve_contains_primary (p : Platform) (a fuel : Nat) :
    Event.shQueryPrimary a ∈ (resolve p a (fuel + 1)).2 := by
  unfold resolve
  dsimp only
  split
  · exact get_icon_handle_primary_mem p a
  · exact List.mem_append.mpr (Or.inl (get_icon_handle_primary_mem p a))

/-- C1: at an input where the resolver yields icon handle 5 on its first
attempt and off-screen bitmap creation then fails, `default_icon_to_image`
deletes the owned memory device context, releases the borrowed screen
device context and raises the bitmap-allocation `ValueError` — but,
contrary to the claim, the icon handle obtained by the resolver is never
released: the trace contains no `DestroyIcon` call, so the handle leaks
when the error surfaces to the caller. -/
theorem bitmap_failure_releases_contexts_but_leaks_icon :
    (default_icon_to_image pNoBitmap "file.xyz" "out.png" 48).1
      = Except.error (PyExc.valueError "Failed to create a compatible bitmap.") ∧
    (default_icon_to_image pNoBitmap "file.xyz" "out.png" 48).2
      = [Event.shQueryPrimary 0, Event.getDC, Event.createCompatibleDC,
         Event.createCompatibleBitmap, Event.deleteDC 12, Event.releaseDC 11] ∧
    Event.destroyIcon 5 ∉ (default_icon_to_image pNoBitmap "file.xyz" "out.png" 48).2 := by
  refine ⟨rfl, rfl, ?_⟩
  decide

theorem renderBody_count_release (p : Platform) (out : String) (g : Nat) :
    (renderBody p out).2.count (Event.deleteObject g) = 0 ∧
    (renderBody p out).2.count (Event.deleteDC g) = 0 ∧
    (renderBody p out).2.count (Event.releaseDC g) = 0 ∧
    (renderBody p out).2.count (Event.destroyIcon g) = 0 := by
  unfold renderBody
  split
  · rw [dibBuffer_decodes p]
    dsimp only
    split <;> simp [List.count_cons]
  · simp [List.count_cons]

/-- C2: whenever the resolver produced a handle and the off-screen bitmap
was created and selected, the trace of `default_icon_to_image` ends — on
success and on draw/read-back/save failure alike — with the cleanup
sequence in order: restore the previously selected bitmap, delete the owned
bitmap, delete the owned memory context, release the borrowed screen
context, destroy the icon handle; each of the four release calls occurs
exactly once in the whole trace (a `DestroyIcon` failure is swallowed by
construction of `destroyIconStep`), so no resource is double-released or
leaked on these paths. -/
theorem render_cleanup_exactly_once (p : Platform) (fp out : String) (sz : Int)
    (h : Nat) (hres : (resolve p 0 5).1 = some h)
    (hbmp : p.createCompatibleBitmap ≠ 0) :
    (∃ pre, (default_icon_to_image p fp out sz).2 = pre ++
        [Event.selectObject p.previousBitmap,
         Event.deleteObject p.createCompatibleBitmap,
         Event.deleteDC p.createCompatibleDC,
         Event.releaseDC p.getDC,
         Event.destroyIcon h]) ∧
    (default_icon_to_image p fp out sz).2.count
      (Event.deleteObject p.createCompatibleBitmap) = 1 ∧
    (default_icon_to_image p fp out sz).2.count
      (Event.deleteDC p.createCompatibleDC) = 1 ∧
    (default_icon_to_image p fp out sz).2.count (Event.releaseDC p.getDC) = 1 ∧
    (default_icon_to_image p fp out sz).2.count (Event.destroyIcon h) = 1 := by
  have hval := resolve_some_valid p 5 0 h hres
  have hd := destroyIconStep_eq p h hval
  have htr : (default_icon_to_image p fp out sz).2 =
      (resolve p 0 5).2 ++
        [Event.getDC, Event.createCompatibleDC, Event.createCompatibleBitmap,
         Event.selectObject p.createCompatibleBitmap] ++
        (renderBody p out).2 ++
        ([Event.selectObject p.previousBitmap,
          Event.deleteObject p.createCompatibleBitmap,
          Event.deleteDC p.createCompatibleDC,
          Event.releaseDC p.getDC] ++ [Event.destroyIcon h]) := by
    simp only [default_icon_to_image, default_icon_to_image_r, defaultRetries, hres, hd]
    rw [if_neg hbmp]
  have hres0 : ∀ ev : Event, isShQuery ev = false → (resolve p 0 5).2.count ev = 0 :=
    fun ev hev => count_eq_zero_of_all_sh (resolve_mem_sh p 5 0) hev
  have hrb := renderBody_count_release p out
  refine ⟨⟨(resolve p 0 5).2 ++
      [Event.getDC, Event.createCompatibleDC, Event.createCompatibleBitmap,
       Event.selectObject p.createCompatibleBitmap] ++ (renderBody p out).2, ?_⟩,
    ?_, ?_, ?_, ?_⟩
  · rw [htr]; simp [List.append_assoc]
  · rw [htr]
    simp [List.count_append, List.count_cons,
      hres0 (Event.deleteObject p.createCompatibleBitmap) rfl,
      (hrb p.createCompatibleBitmap).1]
  · rw [htr]
    simp [List.count_append, List.count_cons,
      hres0 (Event.deleteDC p.createCompatibleDC) rfl,
      (hrb p.createCompatibleDC).2.1]
  · rw [htr]
    simp [List.count_append, List.count_cons,
      hres0 (Event.releaseDC p.getDC) rfl, (hrb p.getDC).2.2.1]
  · rw [htr]
    simp [List.count_append, List.count_cons,
      hres0 (Event.destroyIcon h) rfl, (hrb h).2.2.2]

/-- Witness for `render_cleanup_exactly_once` at the concrete oracle `pOk`:
the resolver returns handle 5, the bitmap is created, and the icon handle is
destroyed exactly once. -/
theorem render_cleanup_exactly_once_witness :
    (resolve pOk 0 5).1 = some 5 ∧ pOk.createCompatibleBitmap ≠ 0 ∧
    (default_icon_to_image pOk "f" "o" 48).2.count (Event.destroyIcon 5) = 1 :=
  ⟨by decide, by decide,
    (render_cleanup_exactly_once pOk "f" "o" 48 5 (by decide) (by decide)).2.2.2.2⟩

/-- C3: with a shell query that always fails, the resolver performs exactly
`maxAttempts` attempt-pairs — for every attempt the primary query followed
by the fallback query, `2 * maxAttempts` shell calls in all — and yields no
icon, after which the operation returns the `NoIcon` outcome (the fallback
path); `resolve` is a total function of the bounded budget, so the loop
cannot block indefinitely, and the reference budget `defaultRetries` is 5
attempts. -/
theorem resolver_retry_bound (p : Platform) (maxAttempts : Nat)
    (hp : ∀ a, (p.shPrimary a).1 = 0) (hf : ∀ a, (p.shFallback a).1 = 0) :
    resolve p 0 maxAttempts = (none, attemptPairs 0 maxAttempts) ∧
    (attemptPairs 0 maxAttempts).length = 2 * maxAttempts ∧
    defaultRetries = 5 ∧
    (∀ fp out sz, (default_icon_to_image_r p fp out sz maxAttempts).1
      = Except.ok fallbackPath) := by
  refine ⟨resolve_always_fail p hp hf maxAttempts 0,
    attemptPairs_length 0 maxAttempts, rfl, ?_⟩
  intro fp out sz
  have hr := resolve_always_fail p hp hf maxAttempts 0
  simp [default_icon_to_image_r, hr]

/-- Witness for `resolver_retry_bound` at the concrete oracle
`pAlwaysFail` with the reference budget of 5 attempts. -/
theorem resolver_retry_bound_witness :
    (∀ a, (pAlwaysFail.shPrimary a).1 = 0) ∧
    resolve pAlwaysFail 0 5 = (none, attemptPairs 0 5) :=
  ⟨fun _ => rfl,
    (resolver_retry_bound pAlwaysFail 5 (fun _ => rfl) (fun _ => rfl)).1⟩

/-- C4: the retry loop accepts a handle returned by a shell query if and
only if it is nonzero and at most `2 ^ 32 - 1` (a `None`/NULL result is
never accepted); when the query is rejected on attempts 0 and 1 and yields
an in-range handle on attempt 2 of 5, `resolve` returns that handle with the
shell queries of attempts 0, 1 and 2 as its whole trace and performs no
further attempt; and an out-of-range handle on attempt 0 makes the loop
repeat the two-step query on attempt 1. -/
theorem resolver_accept_range_and_early_stop (p : Platform) (h : Nat) :
    (∀ g : Nat, acceptHandle (some g) = true ↔ g ≠ 0 ∧ g ≤ 2 ^ 32 - 1) ∧
    acceptHandle none = false ∧
    (acceptHandle (get_icon_handle p 0).1 = false →
     acceptHandle (get_icon_handle p 1).1 = false →
     (get_icon_handle p 2).1 = some h → h ≠ 0 → h ≤ 2 ^ 32 - 1 →
       (resolve p 0 5).1 = some h ∧
       (resolve p 0 5).2 = (get_icon_handle p 0).2 ++ (get_icon_handle p 1).2 ++
         (get_icon_handle p 2).2 ∧
       (∀ a, 3 ≤ a → Event.shQueryPrimary a ∉ (resolve p 0 5).2)) ∧
    (∀ g, (get_icon_handle p 0).1 = some g → ¬(g ≠ 0 ∧ g ≤ 2 ^ 32 - 1) →
       Event.shQueryPrimary 1 ∈ (resolve p 0 5).2) := by
  refine ⟨fun g => by simp [acceptHandle], rfl, ?_, ?_⟩
  · intro h0 h1 h2 hz hle
    have hacc2 : acceptHandle (some h) = true := by
      simp only [acceptHandle, Bool.and_eq_true, decide_eq_true_eq]
      exact ⟨hz, hle⟩
    have hall : resolve p 0 5 =
        (some h, (get_icon_handle p 0).2 ++ ((get_icon_handle p 1).2 ++
          (get_icon_handle p 2).2)) := by
      simp [resolve, h0, h1, h2, hacc2]
    refine ⟨by rw [hall], by rw [hall]; simp [List.append_assoc], ?_⟩
    intro a ha hmem
    rw [hall] at hmem
    dsimp only at hmem
    rcases List.mem_append.mp hmem with hm | hm
    · rcases get_icon_handle_events p 0 _ hm with he | he
      · injection he with he; omega
      · exact Event.noConfusion he
    · rcases List.mem_append.mp hm with hm2 | hm2
      · rcases get_icon_handle_events p 1 _ hm2 with he | he
        · injection he with he; omega
        · exact Event.noConfusion he
      · rcases get_icon_handle_events p 2 _ hm2 with he | he
        · injection he with he; omega
        · exact Event.noConfusion he
  · intro g hg hrej
    have hacc : acceptHandle (get_icon_handle p 0).1 = false := by
      rw [hg]
      simp only [acceptHandle, Bool.and_eq_true, decide_eq_true_eq]
      rw [Bool.eq_false_iff]
      intro hc
      exact hrej (by simpa [Bool.and_eq_true, decide_eq_true_eq] using hc)
    have hstep := resolve_step_reject p 0 4 hacc
    show Event.shQueryPrimary 1 ∈ (resolve p 0 (4 + 1)).2
    rw [hstep]
    exact List.mem_append.mpr (Or.inr (resolve_contains_primary p 1 3))

/-- Witness for `resolver_accept_range_and_early_stop` at the concrete
oracle `pThirdTry`: attempts 0 and 1 are rejected, attempt 2 yields the
in-range handle 7, and the resolver returns it. -/
theorem resolver_accept_range_witness :
    acceptHandle (get_icon_handle pThirdTry 0).1 = false ∧
    (get_icon_handle pThirdTry 2).1 = some 7 ∧
    (resolve pThirdTry 0 5).1 = some 7 :=
  ⟨by decide, by decide,
    ((resolver_accept_range_and_early_stop pThirdTry 7).2.2.1 (by decide)
      (by decide) (by decide) (by decide) (by decide)).1⟩

/-- C5: when the resolver exhausts all attempts without a valid handle, the
operation returns the bundled fallback path; its trace consists of the
resolver's shell queries only — no device context is acquired, no draw
command is issued, and nothing is saved to the requested output path. -/
theorem noicon_short_circuit (p : Platform) (fp out : String) (sz : Int)
    (retries : Nat) (hres : (resolve p 0 retries).1 = none) :
    (default_icon_to_image_r p fp out sz retries).1 = Except.ok fallbackPath ∧
    (default_icon_to_image_r p fp out sz retries).2 = (resolve p 0 retries).2 ∧
    (∀ e ∈ (default_icon_to_image_r p fp out sz retries).2, isShQuery e = true) ∧
    Event.getDC ∉ (default_icon_to_image_r p fp out sz retries).2 ∧
    Event.drawIconEx ∉ (default_icon_to_image_r p fp out sz retries).2 ∧
    Event.save out ∉ (default_icon_to_image_r p fp out sz retries).2 := by
  have htr : default_icon_to_image_r p fp out sz retries =
      (Except.ok fallbackPath, (resolve p 0 retries).2) := by
    simp [default_icon_to_image_r, hres]
  have hsh : ∀ e ∈ (default_icon_to_image_r p fp out sz retries).2,
      isShQuery e = true := by
    rw [htr]; exact resolve_mem_sh p retries 0
  refine ⟨by rw [htr], by rw [htr], hsh, ?_, ?_, ?_⟩ <;>
    exact fun hmem => by have := hsh _ hmem; simp [isShQuery] at this

/-- Witness for `noicon_short_circuit` at the concrete oracle
`pAlwaysFail`. -/
theorem noicon_short_circuit_witness :
    (resolve pAlwaysFail 0 5).1 = none ∧
    (default_icon_to_image_r pAlwaysFail "f" "out.png" 48 5).1
      = Except.ok fallbackPath ∧
    Event.save "out.png" ∉ (default_icon_to_image_r pAlwaysFail "f" "out.png" 48 5).2 :=
  ⟨by decide,
    (noicon_short_circuit pAlwaysFail "f" "out.png" 48 5 (by decide)).1,
    (noicon_short_circuit pAlwaysFail "f" "out.png" 48 5 (by decide)).2.2.2.2.2⟩

/-- C6: when the platform reports failure of the draw-icon command, the
render step fails with `ctypes.WinError` carrying the platform's last error
code; no output is produced (no save call targets the output path), the
error propagates out of `default_icon_to_image`, and the process terminates
with the non-zero exit status 1 that the interpreter assigns to an
exception escaping `main`. -/
theorem draw_failure_propagates_code (p : Platform) (fp out : String)
    (sz : Int) (h : Nat) (prog szs : String) (ep : ExePlatform)
    (hres : (resolve p 0 5).1 = some h)
    (hbmp : p.createCompatibleBitmap ≠ 0)
    (hdraw : p.drawSucceeds = false) :
    (default_icon_to_image p fp out sz).1
      = Except.error (PyExc.winError p.lastError) ∧
    Event.save out ∉ (default_icon_to_image p fp out sz).2 ∧
    (pyInt? szs ≠ none → processExit [prog, "default", fp, out, szs] ep p = 1) ∧
    (pyInt? szs ≠ none → processExit [prog, "default", fp, out, szs] ep p ≠ 0) := by
  have hval := resolve_some_valid p 5 0 h hres
  have hd := destroyIconStep_eq p h hval
  have hrb : renderBody p out = (Except.error (PyExc.winError p.lastError),
      [Event.drawIconEx]) := by
    simp [renderBody, hdraw]
  have key : ∀ z : Int, default_icon_to_image p fp out z =
      (Except.error (PyExc.winError p.lastError),
        (resolve p 0 5).2 ++
          [Event.getDC, Event.createCompatibleDC, Event.createCompatibleBitmap,
            Event.selectObject p.createCompatibleBitmap] ++
          [Event.drawIconEx] ++
          ([Event.selectObject p.previousBitmap,
            Event.deleteObject p.createCompatibleBitmap,
            Event.deleteDC p.createCompatibleDC,
            Event.releaseDC p.getDC] ++ [Event.destroyIcon h])) := by
    intro z
    simp only [default_icon_to_image, default_icon_to_image_r, defaultRetries,
      hres, hd, hrb]
    rw [if_neg hbmp]
    rfl
  have hmain : ∀ n : Int, pyInt? szs = some n →
      main [prog, "default", fp, out, szs] ep p
        = Except.error (PyExc.winError p.lastError) := by
    intro n hn
    simp [main, List.getD, hn, key n]
  refine ⟨by rw [key sz], ?_, ?_, ?_⟩
  · rw [key sz]
    intro hmem
    dsimp only at hmem
    rcases List.mem_append.mp hmem with hm | hm
    · rcases List.mem_append.mp hm with hm2 | hm2
      · rcases List.mem_append.mp hm2 with hm3 | hm3
        · have := resolve_mem_sh p 5 0 _ hm3
          simp [isShQuery] at this
        · simp at hm3
      · simp at hm2
    · simp at hm
  · intro hsz
    rcases Option.ne_none_iff_exists.mp hsz with ⟨n, hn⟩
    simp [processExit, hmain n hn.symm]
  · intro hsz
    rcases Option.ne_none_iff_exists.mp hsz with ⟨n, hn⟩
    simp [processExit, hmain n hn.symm]

/-- Witness for `draw_failure_propagates_code` at the concrete oracle
`pDrawFail`: the operation fails with last error 1460 and the process exits
with status 1. -/
theorem draw_failure_witness :
    (resolve pDrawFail 0 5).1 = some 5 ∧ pDrawFail.drawSucceeds = false ∧
    (default_icon_to_image pDrawFail "f" "o" 48).1
      = Except.error (PyExc.winError 1460) ∧
    processExit ["p", "default", "f", "o", "48"] epOk pDrawFail = 1 :=
  ⟨by decide, by decide,
    (draw_failure_propagates_code pDrawFail "f" "o" 48 5 "p" "48" epOk
      (by decide) (by decide) (by decide)).1,
    (draw_failure_propagates_code pDrawFail "f" "o" 48 5 "p" "48" epOk
      (by decide) (by decide) (by decide)).2.2.1 (by decide)⟩

/-- C7: for every raw pixel buffer of the expected length
`width * height * 4`, `decode` succeeds and produces a portable image of
the same dimensions whose pixel `i` is the canonical (R, G, B, A)
reordering of the `i`-th 4-byte (B, G, R, A) group of the buffer, with
exactly `width * height` pixels (no resampling); a buffer of any other
length is rejected; and the raw bytes `0x00, 0x00, 0xFF, 0xFF` decode to
the single pixel `(255, 0, 0, 255)`. -/
theorem decode_bgra_to_rgba :
    (∀ (buf : List Nat) (w h : Nat), buf.length = w * h * 4 →
      ∃ img, decode buf w h = some img ∧ img.width = w ∧ img.height = h ∧
        img.pixels.length = w * h ∧
        (∀ i, i < w * h → img.pixels.get? i =
          some (buf.getD (4 * i + 2) 0, buf.getD (4 * i + 1) 0,
            buf.getD (4 * i) 0, buf.getD (4 * i + 3) 0))) ∧
    (∀ (buf : List Nat) (w h : Nat), buf.length ≠ w * h * 4 →
      decode buf w h = none) ∧
    decode [0, 0, 255, 255] 1 1 = some (PortableImage.mk 1 1 [(255, 0, 0, 255)]) := by
  refine ⟨?_, ?_, by decide⟩
  · intro buf w h hlen
    refine ⟨PortableImage.mk w h (bgraToPixels buf), by simp [decode, hlen],
      rfl, rfl, ?_, ?_⟩
    · show (bgraToPixels buf).length = w * h
      rw [bgraToPixels_length, hlen]
      omega
    · intro i hi
      show (bgraToPixels buf).get? i = _
      exact bgraToPixels_get? i buf (by rw [hlen]; omega)
  · intro buf w h hne
    simp [decode, hne]

/-- Witness for `decode_bgra_to_rgba` on the concrete one-pixel buffer
`[0, 0, 255, 255]`. -/
theorem decode_bgra_to_rgba_witness :
    ∃ img, decode [0, 0, 255, 255] 1 1 = some img ∧ img.width = 1 ∧
      img.height = 1 ∧ img.pixels.length = 1 * 1 ∧
      (∀ i, i < 1 * 1 → img.pixels.get? i =
        some (([0, 0, 255, 255] : List Nat).getD (4 * i + 2) 0,
          ([0, 0, 255, 255] : List Nat).getD (4 * i + 1) 0,
          ([0, 0, 255, 255] : List Nat).getD (4 * i) 0,
          ([0, 0, 255, 255] : List Nat).getD (4 * i + 3) 0)) :=
  decode_bgra_to_rgba.1 [0, 0, 255, 255] 1 1 (by decide)

/-- C8: the entry point exits with status 1 on a wrong argument count, a
size that does not parse as an integer, or an unsupported mode selector;
with status 0 when an image path is produced — a non-empty path returned by
the default mode (which includes the non-empty `fallbackPath`) or by the
exe mode; and with status 2 when the exe mode produced no image. -/
theorem cli_exit_codes :
    (∀ (argv : List String) (ep : ExePlatform) (dp : Platform),
       argv.length ≠ 5 → main argv ep dp = Except.ok 1) ∧
    (∀ (prog ft fp out szs : String) (ep : ExePlatform) (dp : Platform),
       pyInt? szs = none → main [prog, ft, fp, out, szs] ep dp = Except.ok 1) ∧
    (∀ (prog ft fp out szs : String) (n : Int) (ep : ExePlatform) (dp : Platform),
       pyInt? szs = some n → ft ≠ "exe" → ft ≠ "default" →
       main [prog, ft, fp, out, szs] ep dp = Except.ok 1) ∧
    (∀ (prog fp out szs pth : String) (n : Int) (ep : ExePlatform) (dp : Platform),
       pyInt? szs = some n →
       (default_icon_to_image dp fp out n).1 = Except.ok pth → pth ≠ "" →
       main [prog, "default", fp, out, szs] ep dp = Except.ok 0) ∧
    (∀ (prog fp out szs pth : String) (n : Int) (ep : ExePlatform) (dp : Platform),
       pyInt? szs = some n →
       exe_to_image ep fp out n = Except.ok (some pth) → pth ≠ "" →
       main [prog, "exe", fp, out, szs] ep dp = Except.ok 0) ∧
    (∀ (prog fp out szs : String) (n : Int) (ep : ExePlatform) (dp : Platform),
       pyInt? szs = some n → exe_to_image ep fp out n = Except.ok none →
       main [prog, "exe", fp, out, szs] ep dp = Except.ok 2) ∧
    fallbackPath ≠ "" := by
  refine ⟨?_, ?_, ?_, ?_, ?_, ?_, by decide⟩
  · intro argv ep dp hlen
    simp [main, hlen]
  · intro prog ft fp out szs ep dp hsz
    simp [main, List.getD, hsz]
  · intro prog ft fp out szs n ep dp hsz hft1 hft2
    simp [main, List.getD, hsz, hft1, hft2]
  · intro prog fp out szs pth n ep dp hsz hok hne
    simp [main, List.getD, hsz, hok, hne]
  · intro prog fp out szs pth n ep dp hsz hok hne
    simp [main, List.getD, hsz, hok, hne]
  · intro prog fp out szs n ep dp hsz hok
    simp [main, List.getD, hsz, hok]

/-- Witness for `cli_exit_codes` at concrete invocations: three bad-argument
exits, a success exit with the fallback path, and a no-image exit. -/
theorem cli_exit_codes_witness :
    main ["p", "default", "f", "o"] epOk pOk = Except.ok 1 ∧
    main ["p", "default", "f", "o", "big"] epOk pOk = Except.ok 1 ∧
    main ["p", "gif", "f", "o", "48"] epOk pOk = Except.ok 1 ∧
    main ["p", "default", "f", "o", "48"] epOk pAlwaysFail = Except.ok 0 ∧
    main ["p", "exe", "f", "o", "48"] epFail pOk = Except.ok 2 :=
  ⟨cli_exit_codes.1 ["p", "default", "f", "o"] epOk pOk (by decide),
    cli_exit_codes.2.1 "p" "default" "f" "o" "big" epOk pOk (by decide),
    cli_exit_codes.2.2.1 "p" "gif" "f" "o" "48" 48 epOk pOk (by decide)
      (by decide) (by decide),
    cli_exit_codes.2.2.2.1 "p" "f" "o" "48" fallbackPath 48 epOk pAlwaysFail
      (by decide) rfl (by decide),
    cli_exit_codes.2.2.2.2.2.1 "p" "f" "o" "48" 48 epFail pOk (by decide) rfl⟩

/-- C9: whenever `default_icon_to_image` returns normally, its result is
the caller's output path or the bundled fallback path
`assets/images/unknown.png`, never a `None`-like value; hence for a
non-empty output path the entry point cannot reach exit status 2 through
the default mode. -/
theorem default_mode_never_none :
    (∀ (p : Platform) (fp out : String) (sz : Int) (pth : String),
       (default_icon_to_image p fp out sz).1 = Except.ok pth →
       pth = out ∨ pth = fallbackPath) ∧
    (∀ (p : Platform) (prog fp out szs : String) (ep : ExePlatform),
       out ≠ "" → main [prog, "default", fp, out, szs] ep p ≠ Except.ok 2) := by
  have hcases : ∀ (p : Platform) (fp out : String) (sz : Int) (pth : String),
      (default_icon_to_image p fp out sz).1 = Except.ok pth →
      pth = out ∨ pth = fallbackPath := by
    intro p fp out sz pth hok
    exact default_ok_cases p fp out sz defaultRetries pth hok
  refine ⟨hcases, ?_⟩
  intro p prog fp out szs ep hout
  rcases hsz : pyInt? szs with _ | n
  · simp [main, List.getD, hsz]
  · rcases hres : (default_icon_to_image p fp out n).1 with e | pth
    · simp [main, List.getD, hsz, hres]
    · have hne : pth ≠ "" := by
        rcases hcases p fp out n pth hres with hp | hp
        · rw [hp]; exact hout
        · rw [hp]; decide
      simp [main, List.getD, hsz, hres, hne]

/-- Witness for `default_mode_never_none`: the always-failing oracle
returns the fallback path, and the corresponding invocation of `main` does
not exit with status 2. -/
theorem default_mode_never_none_witness :
    ((default_icon_to_image pAlwaysFail "f" "o" 48).1 = Except.ok fallbackPath →
      fallbackPath = "o" ∨ fallbackPath = fallbackPath) ∧
    main ["p", "default", "f", "o", "48"] epOk pAlwaysFail ≠ Except.ok 2 :=
  ⟨fun hok => default_mode_never_none.1 pAlwaysFail "f" "o" 48 fallbackPath hok,
    default_mode_never_none.2 pAlwaysFail "p" "f" "o" "48" epOk (by decide)⟩

/-- C10: `exe_to_image` never lets an exception escape to its caller —
for every oracle it returns normally, and every failure of the extraction
pipeline is mapped to the no-image result `none`, which the entry point
reports as exit status 2. -/
theorem exe_path_never_raises :
    (∀ (ep : ExePlatform) (exe out : String) (sz : Int),
       ∃ ro, exe_to_image ep exe out sz = Except.ok ro) ∧
    (∀ (ep : ExePlatform) (exe out : String) (sz : Int) (e : PyExc),
       exeBody ep out = Except.error e →
       exe_to_image ep exe out sz = Except.ok none) ∧
    (∀ (prog fp out szs : String) (n : Int) (e : PyExc)
       (ep : ExePlatform) (dp : Platform),
       pyInt? szs = some n → exeBody ep out = Except.error e →
       main [prog, "exe", fp, out, szs] ep dp = Except.ok 2) := by
  have habs : ∀ (ep : ExePlatform) (exe out : String) (sz : Int) (e : PyExc),
      exeBody ep out = Except.error e →
      exe_to_image ep exe out sz = Except.ok none := by
    intro ep exe out sz e hb
    cases e <;> simp [exe_to_image, hb]
  refine ⟨?_, habs, ?_⟩
  · intro ep exe out sz
    rcases hb : exeBody ep out with e | pth
    · exact ⟨none, habs ep exe out sz e hb⟩
    · exact ⟨some pth, by simp [exe_to_image, hb]⟩
  · intro prog fp out szs n e ep dp hsz hb
    simp [main, List.getD, hsz, habs ep fp out n e hb]

/-- Witness for `exe_path_never_raises` at the concrete failing oracle
`epFail`. -/
theorem exe_path_never_raises_witness :
    exe_to_image epFail "f" "o" 48 = Except.ok none ∧
    main ["p", "exe", "f", "o", "48"] epFail pOk = Except.ok 2 :=
  ⟨exe_path_never_raises.2.1 epFail "f" "o" 48
      (PyExc.iconExtractorError "no icon resource") rfl,
    exe_path_never_raises.2.2 "p" "f" "o" "48" 48
      (PyExc.iconExtractorError "no icon resource") epFail pOk (by decide) rfl⟩

end FileToImage
